import Mathlib

/-!
Formal model of `stock_checker.py` from the `microcenter-stock` repository.

The Python program is a single-file polling loop: it fetches a product page,
classifies it by two literal marker substrings, counts consecutive
unknown/error cycles, and sends push/email notifications on in-stock,
threshold breach, startup, shutdown and heartbeat.  The definitions below are
a shallow embedding of that file: page texts are character lists, times are
natural-number seconds, the environment is a partial map from keys to strings,
and the transports (HTTP post, SMTP) are oracles whose outcome is passed in.
-/

namespace StockChecker

/-- Does `needle` occur at the very start of `haystack`?  Helper for Python's
substring test. -/
def matchesHere : List Char → List Char → Bool
  | [], _ => true
  | _ :: _, [] => false
  | n :: ns, h :: hs => n == h && matchesHere ns hs

/-- Python's `needle in haystack` on strings, over character lists. -/
def containsSub (needle : List Char) : List Char → Bool
  | [] => matchesHere needle []
  | h :: hs => matchesHere needle (h :: hs) || containsSub needle hs

/-- The in-stock marker tested first in `check_stock` (line 198). -/
def inStockMarker : List Char := "\x27inStock\x27:\x27True\x27".data

/-- The out-of-stock marker tested second in `check_stock` (line 213). -/
def outOfStockMarker : List Char := "\x27inStock\x27:\x27False\x27".data

/-- Tri-state classification of a fetched page. -/
inductive CheckResult where
  | inStock
  | outOfStock
  | unknown
deriving DecidableEq

/-- Classification of the page text, mirroring the order of the two marker
tests in `check_stock`: the in-stock test runs first, so it takes precedence
when both markers occur. -/
def parse (page : List Char) : CheckResult :=
  if containsSub inStockMarker page then CheckResult.inStock
  else if containsSub outOfStockMarker page then CheckResult.outOfStock
  else CheckResult.unknown

/-- The configuration snapshot read at module load (lines 25-35).
`productUrl` is `os.getenv("PRODUCT_URL")`, hence optional; the three numeric
settings are parsed from strings with defaults "60", "3", "24". -/
structure Config where
  productUrl : Option String
  pollInterval : Nat
  maxRetries : Nat
  heartbeatHours : Nat
deriving DecidableEq

/-- Model of `os.getenv(key, dflt)`. -/
def getenvDefault (env : String → Option String) (key dflt : String) : String :=
  (env key).getD dflt

/-- Accumulate decimal digits; any non-digit character fails. -/
def pyIntDigits : List Char → Nat → Option Nat
  | [], acc => some acc
  | c :: cs, acc =>
      if c.isDigit then pyIntDigits cs (acc * 10 + (c.toNat - 48)) else none

/-- Python's `int(s)` on the nonnegative decimal strings this program feeds
it: all-digit strings parse, anything else raises `ValueError`. -/
def pyIntParse (s : String) : Option Nat :=
  match s.data with
  | [] => none
  | ds => pyIntDigits ds 0

/-- The module-level configuration load: `os.getenv` for the URL with no
validation, and `int(...)` conversion of the three numeric settings, which is
the only startup step that can fail. -/
def loadConfig (env : String → Option String) : Except String Config :=
  match pyIntParse (getenvDefault env "POLL_INTERVAL" "60"),
        pyIntParse (getenvDefault env "MAX_RETRIES" "3"),
        pyIntParse (getenvDefault env "HEARTBEAT_HOURS" "24") with
  | some p, some m, some h =>
      Except.ok { productUrl := env "PRODUCT_URL", pollInterval := p,
                  maxRetries := m, heartbeatHours := h }
  | _, _, _ => Except.error "ValueError"

/-- Outcome of one page fetch: the rendered page text, or a raised
`WebDriverException`/`TimeoutError` carrying a message. -/
inductive FetchOutcome where
  | ok (page : List Char)
  | exn (msg : String)
deriving DecidableEq

/-- One call to `send_push` or `send_email` as made by the checker, recording
the arguments passed. -/
inductive NotifyCall where
  | push (message title : String) (url : Option String)
  | email (subject body : String) (url : Option String)
deriving DecidableEq

/-- Push message for the unknown-status threshold notification (line 221). -/
def unknownErrorPushMsg (n : Nat) : String :=
  "Stock check returned unknown status " ++ toString n ++
    " times in a row.\nClick to verify manually."

/-- Email body for the unknown-status threshold notification (line 228). -/
def unknownErrorEmailBody (n : Nat) : String :=
  "Unknown stock status detected " ++ toString n ++
    " times in a row.\nPlease verify manually using the link below."

/-- Push message for the exception threshold notification (line 237). -/
def exceptionPushMsg (n : Nat) (e : String) : String :=
  "Checker failed " ++ toString n ++ " times in a row: " ++ e ++
    "\nClick to check manually."

/-- Email body for the exception threshold notification (line 244). -/
def exceptionEmailBody (n : Nat) (e : String) : String :=
  "The stock checker encountered " ++ toString n ++ " consecutive errors:\n" ++
    e ++ "\n\nPlease check manually using the link below."

/-- The push+email pair sent when the failure counter has reached the
threshold, which differs in text between the unknown-parse path and the
caught-exception path. -/
def failureCalls (cfg : Config) (n : Nat) : FetchOutcome → List NotifyCall
  | FetchOutcome.ok _ =>
      [NotifyCall.push (unknownErrorPushMsg n) "Checker Error" cfg.productUrl,
       NotifyCall.email "Stock Checker Error" (unknownErrorEmailBody n) cfg.productUrl]
  | FetchOutcome.exn e =>
      [NotifyCall.push (exceptionPushMsg n e) "Checker Exception" cfg.productUrl,
       NotifyCall.email "Stock Checker Exception" (exceptionEmailBody n e) cfg.productUrl]

/-- The in-stock push+email pair (lines 201-210). -/
def inStockCalls (cfg : Config) : List NotifyCall :=
  [NotifyCall.push "Product is in stock! Click to view the product page."
     "In Stock" cfg.productUrl,
   NotifyCall.email "Product In Stock"
     "Your product is now available! Click the link below to view the product page."
     cfg.productUrl]

/-- Result of one `check_stock` call: the updated global failure counter, the
notification calls it made, and its boolean return value. -/
structure CheckOutput where
  failures : Nat
  calls : List NotifyCall
  result : Bool
deriving DecidableEq

/-- The `try`-block body of one `check_stock` cycle (lines 194-251), reached
once the driver of line 193 exists, given the prior value of the global
`consecutive_failures` and the fetch outcome.  In-stock resets the counter
and returns `true`; out-of-stock resets the counter silently; an unknown page
or a caught `WebDriverException`/`TimeoutError` increments the counter and
fires the threshold pair when `consecutive_failures >= MAX_RETRIES`.  Every
non-in-stock path of this body returns `false`; the driver construction that
can escape the function uncaught is modelled by `check_stock_full` below. -/
def check_stock (cfg : Config) (failures : Nat) : FetchOutcome → CheckOutput
  | FetchOutcome.ok page =>
      if containsSub inStockMarker page then
        { failures := 0, calls := inStockCalls cfg, result := true }
      else if containsSub outOfStockMarker page then
        { failures := 0, calls := [], result := false }
      else
        { failures := failures + 1
          calls :=
            if cfg.maxRetries ≤ failures + 1 then
              failureCalls cfg (failures + 1) (FetchOutcome.ok page)
            else []
          result := false }
  | FetchOutcome.exn e =>
      { failures := failures + 1
        calls :=
          if cfg.maxRetries ≤ failures + 1 then
            failureCalls cfg (failures + 1) (FetchOutcome.exn e)
          else []
        result := false }

/-- Fetch outcomes that take the failure-counting path of `check_stock`:
an unknown page (neither marker) or a raised fetch exception. -/
def failingFetch : FetchOutcome → Bool
  | FetchOutcome.ok page =>
      !containsSub inStockMarker page && !containsSub outOfStockMarker page
  | FetchOutcome.exn _ => true

/-- Outcome of `webdriver.Chrome(service=Service(ChromeDriverManager().install()), ...)`
at line 193: the driver is built, or that call raises. -/
inductive DriverOutcome where
  | ok
  | raise (msg : String)
deriving DecidableEq

/-- The whole of `check_stock` (lines 184-251) including the driver
construction at line 193, which runs BEFORE the `try` of line 194: an
exception raised there is not caught by the `except (WebDriverException,
TimeoutError)` handler and escapes the function, so the result is fallible.
Once the driver exists, the body is `check_stock` and always returns. -/
def check_stock_full (cfg : Config) (failures : Nat) :
    DriverOutcome → FetchOutcome → Except String CheckOutput
  | DriverOutcome.ok, fetch => Except.ok (check_stock cfg failures fetch)
  | DriverOutcome.raise msg, _ => Except.error msg

/-- Iterated `check_stock` over a list of fetch outcomes, returning the
notification calls of each cycle in order and the final counter value. -/
def runChecks (cfg : Config) (failures : Nat) :
    List FetchOutcome → List (List NotifyCall) × Nat
  | [] => ([], failures)
  | f :: rest =>
      let o := check_stock cfg failures f
      let r := runChecks cfg o.failures rest
      (o.calls :: r.1, r.2)

/-- The heartbeat message (lines 174-178); day/hour display of the uptime
timedelta, with the timestamp abstracted to the numeric time. -/
def heartbeatMessage (uptime now : Nat) : String :=
  "Microcenter Stock Checker service is running normally.\nUptime: " ++
    toString (uptime / 86400) ++ " days, " ++ toString (uptime % 86400 / 3600) ++
    " hours\nLast check: " ++ toString now

/-- Model of `send_heartbeat` (lines 169-182): the uptime it reports is
`datetime.now() - last_heartbeat`, and it then sets `last_heartbeat` to now.
Returns the two notification calls and the new `last_heartbeat`. -/
def send_heartbeat (cfg : Config) (lastHeartbeat now : Nat) :
    List NotifyCall × Nat :=
  let uptime := now - lastHeartbeat
  ([NotifyCall.push (heartbeatMessage uptime now) "Service Heartbeat" cfg.productUrl,
    NotifyCall.email "Microcenter Stock Checker Service Heartbeat"
      (heartbeatMessage uptime now) cfg.productUrl],
   now)

/-- The heartbeat guard in the main loop (lines 281-282): call
`send_heartbeat` exactly when `now - last_heartbeat > timedelta(hours=HEARTBEAT_HOURS)`,
otherwise leave `last_heartbeat` unchanged and send nothing. -/
def heartbeatStep (cfg : Config) (lastHeartbeat now : Nat) :
    List NotifyCall × Nat :=
  if cfg.heartbeatHours * 3600 < now - lastHeartbeat then
    send_heartbeat cfg lastHeartbeat now
  else ([], lastHeartbeat)

/-- The "Service Stopping" pair sent by the signal handler (lines 70-81). -/
def stoppingPair (cfg : Config) : List NotifyCall :=
  [NotifyCall.push
     "Microcenter Stock Checker service is shutting down gracefully.\nMonitoring will stop after current check completes."
     "Service Stopping" cfg.productUrl,
   NotifyCall.email "Microcenter Stock Checker Service Stopping"
     "The Microcenter Stock Checker service is being shut down gracefully.\nMonitoring will stop after the current check completes."
     cfg.productUrl]

/-- The "Service Started" pair sent before the loop (lines 262-273). -/
def startedPair (cfg : Config) : List NotifyCall :=
  [NotifyCall.push
     "Microcenter Stock Checker service has started successfully.\nClick to view the monitored product."
     "Service Started" cfg.productUrl,
   NotifyCall.email "Microcenter Stock Checker Service Started"
     "The Microcenter Stock Checker service has started successfully.\nMonitoring the following product:"
     cfg.productUrl]

/-- The "Service Stopped" pair sent by the `finally` block (lines 290-301). -/
def stoppedPair (cfg : Config) : List NotifyCall :=
  [NotifyCall.push
     "Microcenter Stock Checker service has stopped.\nMonitoring is no longer active."
     "Service Stopped" cfg.productUrl,
   NotifyCall.email "Microcenter Stock Checker Service Stopped"
     "The Microcenter Stock Checker service has stopped.\nMonitoring is no longer active."
     cfg.productUrl]

/-- Observable events of a run of `main`: the start of a check cycle, a
notification call, and a full poll-interval sleep. -/
inductive Event where
  | cycleStart
  | notify (c : NotifyCall)
  | sleep (secs : Nat)
deriving DecidableEq

/-- Where within one loop iteration an asynchronous shutdown signal is
delivered: while `check_stock` runs, or while `time.sleep` runs. -/
inductive SigPoint where
  | duringCheck
  | duringSleep
deriving DecidableEq

/-- The environment of one loop iteration: the fetch outcome, the current
time (seconds) at the heartbeat comparison, and whether a shutdown signal is
delivered during this iteration. -/
structure CycleInput where
  fetch : FetchOutcome
  now : Nat
  sig : Option SigPoint
deriving DecidableEq

/-- The mutable run state owned by the loop: the `running` flag, the failure
counter, and `last_heartbeat`. -/
structure LoopState where
  running : Bool
  failures : Nat
  lastHeartbeat : Nat
deriving DecidableEq

/-- Result of one loop iteration: its events, the updated state, and whether
the `break` on an in-stock result was taken. -/
structure IterOut where
  events : List Event
  state : LoopState
  brk : Bool
deriving DecidableEq

/-- The events of the signal handler `handle_shutdown` (lines 66-82): the
"Service Stopping" pair; the handler also sets `running` to `False`. -/
def handleShutdownEvents (cfg : Config) : List Event :=
  (stoppingPair cfg).map Event.notify

/-- One iteration of the `while running` body (lines 276-284).  The cycle
runs `check_stock`; if a signal arrives during the check, the handler's
events are interleaved there and `running` becomes false, but the iteration
still continues: on a non-in-stock result the heartbeat guard runs and the
unconditional `time.sleep(POLL_INTERVAL)` executes in full (a signal arriving
during the sleep runs the handler and the sleep still completes, per the
retry-on-EINTR semantics of `time.sleep`). -/
def iterate (cfg : Config) (st : LoopState) (i : CycleInput) : IterOut :=
  let co := check_stock cfg st.failures i.fetch
  let checkEvents := Event.cycleStart :: co.calls.map Event.notify
  let sigCheck : List Event :=
    if i.sig = some SigPoint.duringCheck then handleShutdownEvents cfg else []
  if co.result then
    { events := checkEvents ++ sigCheck
      state := { running := if i.sig = some SigPoint.duringCheck then false else st.running
                 failures := co.failures
                 lastHeartbeat := st.lastHeartbeat }
      brk := true }
  else
    let hb := heartbeatStep cfg st.lastHeartbeat i.now
    let sigSleep : List Event :=
      if i.sig = some SigPoint.duringSleep then handleShutdownEvents cfg else []
    { events := checkEvents ++ sigCheck ++ hb.1.map Event.notify ++
        [Event.sleep cfg.pollInterval] ++ sigSleep
      state := { running := if i.sig.isSome then false else st.running
                 failures := co.failures
                 lastHeartbeat := hb.2 }
      brk := false }

/-- The `while running` loop (lines 276-284) over a list of iteration
environments: the flag is tested at the top of each iteration only; an
in-stock cycle breaks out.  An exhausted input list simply stops the
unfolding. -/
def runLoop (cfg : Config) (st : LoopState) : List CycleInput → List Event
  | [] => []
  | i :: rest =>
      if st.running then
        let o := iterate cfg st i
        o.events ++ (if o.brk then [] else runLoop cfg o.state rest)
      else []

/-- State at loop entry (lines 257-259): `running = True`,
`consecutive_failures = 0`, `last_heartbeat = start_time`. -/
def initState (startTime : Nat) : LoopState :=
  { running := true, failures := 0, lastHeartbeat := startTime }

/-- A whole run of `main` (lines 253-301): the started pair, the loop, and
the stopped pair from the `finally` block, which runs on every exit path. -/
def run (cfg : Config) (startTime : Nat) (inputs : List CycleInput) : List Event :=
  (startedPair cfg).map Event.notify ++
    runLoop cfg (initState startTime) inputs ++
    (stoppedPair cfg).map Event.notify

/-- Is this notification call a push with the given title? -/
def callIsPushTitled (t : String) : NotifyCall → Bool
  | NotifyCall.push _ title _ => title == t
  | _ => false

/-- Is this notification call an email with the given subject? -/
def callIsEmailSubj (s : String) : NotifyCall → Bool
  | NotifyCall.email subject _ _ => subject == s
  | _ => false

/-- Is this event a push notification with the given title? -/
def eventIsPushTitled (t : String) : Event → Bool
  | Event.notify c => callIsPushTitled t c
  | _ => false

/-- Is this event an email notification with the given subject? -/
def eventIsEmailSubj (s : String) : Event → Bool
  | Event.notify c => callIsEmailSubj s c
  | _ => false

/-- Number of push notifications with the given title in a trace. -/
def pushTitleCount (t : String) (evs : List Event) : Nat :=
  evs.countP (eventIsPushTitled t)

/-- Number of email notifications with the given subject in a trace. -/
def emailSubjectCount (s : String) (evs : List Event) : Nat :=
  evs.countP (eventIsEmailSubj s)

/-- Is this event a full poll-interval sleep? -/
def isSleepEvent : Event → Bool
  | Event.sleep _ => true
  | _ => false

/-- Is this event the start of a check cycle? -/
def isCycleStart : Event → Bool
  | Event.cycleStart => true
  | _ => false

/-- Number of full poll-interval sleeps in a trace. -/
def sleepCount (evs : List Event) : Nat :=
  evs.countP isSleepEvent

/-- Number of check-cycle starts in a trace. -/
def cycleStartCount (evs : List Event) : Nat :=
  evs.countP isCycleStart

/-- Python truthiness of an optional string: `None` and `""` are falsy. -/
def pyTruthy : Option String → Bool
  | none => false
  | some s => !s.isEmpty

/-- The form payload posted to the Pushover endpoint (lines 98-106). -/
structure PushPayload where
  token : String
  user : String
  message : String
  title : String
  url : Option String
  urlTitle : Option String
deriving DecidableEq

/-- The message handed to the SMTP transport (lines 138-148). -/
structure EmailPayload where
  fromAddr : String
  toAddrs : List String
  subject : String
  body : String
deriving DecidableEq

/-- Observable effects of one `send_push`/`send_email` call. -/
inductive SendEvent where
  | warnSkipped (msg : String)
  | postAttempt (p : PushPayload)
  | smtpAttempt (p : EmailPayload)
  | infoSent (msg : String)
  | logError (msg : String)
deriving DecidableEq

/-- Model of `send_push` (lines 88-117).  Credentials are re-read from the
environment on each call; if either is missing or empty the function returns
after a warning without touching the transport.  Otherwise the payload is
posted; the `transport` oracle is the outcome of `requests.post` plus
`raise_for_status`, whose `RequestException` error is caught by the
`try/except` and only logged, so the function always returns normally. -/
def send_push (env : String → Option String) (message : String) (title : String)
    (url : Option String) (transport : Except String Unit) : List SendEvent :=
  let token := env "PUSHOVER_TOKEN"
  let user := env "PUSHOVER_USER"
  if !pyTruthy token || !pyTruthy user then
    [SendEvent.warnSkipped "Pushover credentials missing, skipping push"]
  else
    let payload : PushPayload :=
      { token := token.getD "", user := user.getD "", message := message,
        title := title,
        url := if pyTruthy url then url else none,
        urlTitle := if pyTruthy url then some "View Product" else none }
    match transport with
    | Except.ok _ =>
        [SendEvent.postAttempt payload, SendEvent.infoSent "Pushover notification sent"]
    | Except.error e =>
        [SendEvent.postAttempt payload, SendEvent.logError ("Pushover error: " ++ e)]

/-- Split a character list at commas, as Python's `split(",")` does
(an empty string yields one empty field). -/
def splitCommasAux : List Char → List Char → List (List Char)
  | [], acc => [acc.reverse]
  | c :: cs, acc =>
      if c = ',' then acc.reverse :: splitCommasAux cs []
      else splitCommasAux cs (c :: acc)

/-- Model of `s.split(",")` over the character list of `s`. -/
def splitCommas (s : List Char) : List (List Char) :=
  splitCommasAux s []

/-- Python's `str.strip()`: drop whitespace from both ends. -/
def stripChars (cs : List Char) : List Char :=
  ((cs.dropWhile Char.isWhitespace).reverse.dropWhile Char.isWhitespace).reverse

/-- The recipient-list comprehension of lines 125-128: split on commas,
strip each entry, drop the empty ones. -/
def parseRecipients (s : String) : List String :=
  (((splitCommas s.data).map stripChars).filter fun cs => !cs.isEmpty).map
    fun cs => { data := cs }

/-- Model of `send_email` (lines 120-151).  Settings are re-read per call; if the
user, password or recipient list is missing/empty the function returns after
a warning.  Otherwise the message (with the product URL appended to the body
when truthy) goes to the SMTP transport, whose `SMTPException`/`OSError`
error is caught and only logged, so the function always returns normally. -/
def send_email (env : String → Option String) (subject body : String)
    (url : Option String) (transport : Except String Unit) : List SendEvent :=
  let user := env "EMAIL_USER"
  let password := env "EMAIL_PASSWORD"
  let recipients := parseRecipients ((env "EMAIL_RECIPIENTS").getD "")
  if !pyTruthy user || !pyTruthy password || recipients.isEmpty then
    [SendEvent.warnSkipped "Email settings incomplete, skipping email"]
  else
    let fullBody :=
      if pyTruthy url then body ++ "\n\nProduct URL: " ++ url.getD "" else body
    let payload : EmailPayload :=
      { fromAddr := user.getD "", toAddrs := recipients, subject := subject,
        body := fullBody }
    match transport with
    | Except.ok _ =>
        [SendEvent.smtpAttempt payload, SendEvent.infoSent "Email notification sent"]
    | Except.error e =>
        [SendEvent.smtpAttempt payload, SendEvent.logError ("Email error: " ++ e)]

/-- Does a send trace contain a transport attempt? -/
def attemptsTransport (evs : List SendEvent) : Bool :=
  evs.any fun e =>
    match e with
    | SendEvent.postAttempt _ => true
    | SendEvent.smtpAttempt _ => true
    | _ => false

/-! ## Helper lemmas -/

theorem check_stock_failing (cfg : Config) (f : Nat) (o : FetchOutcome)
    (h : failingFetch o = true) :
    check_stock cfg f o =
      { failures := f + 1
        calls := if cfg.maxRetries ≤ f + 1 then failureCalls cfg (f + 1) o else []
        result := false } := by
  cases o with
  | ok page =>
      simp only [failingFetch, Bool.and_eq_true, Bool.not_eq_true'] at h
      simp [check_stock, h.1, h.2]
  | exn e => simp [check_stock]

theorem runChecks_failing (cfg : Config) (outcomes : List FetchOutcome) :
    ∀ f : Nat, (∀ o ∈ outcomes, failingFetch o = true) →
      (runChecks cfg f outcomes).2 = f + outcomes.length ∧
      ∀ i, i < outcomes.length →
        (runChecks cfg f outcomes).1.getD i [] =
          if cfg.maxRetries ≤ f + i + 1 then
            failureCalls cfg (f + i + 1) (outcomes.getD i (FetchOutcome.exn ""))
          else [] := by
  induction outcomes with
  | nil => intro f _; simp [runChecks]
  | cons o rest ih =>
      intro f h
      have ho := check_stock_failing cfg f o (h o (List.mem_cons_self o rest))
      have ihr := ih (f + 1) (fun x hx => h x (List.mem_cons_of_mem o hx))
      constructor
      · show (runChecks cfg f (o :: rest)).2 = f + (rest.length + 1)
        simp only [runChecks, ho]
        rw [ihr.1]
        omega
      · intro i hi
        cases i with
        | zero => simp [runChecks, ho]
        | succ n =>
            have hn : n < rest.length := by
              simpa [Nat.succ_lt_succ_iff] using hi
            have := ihr.2 n hn
            have harith : f + 1 + n + 1 = f + (n + 1) + 1 := by omega
            rw [harith] at this
            simpa [runChecks, ho] using this

theorem mem_check_stock_calls (cfg : Config) (f : Nat) (o : FetchOutcome)
    (c : NotifyCall) (h : c ∈ (check_stock cfg f o).calls) :
    c ∈ inStockCalls cfg ∨ ∃ n, c ∈ failureCalls cfg n o := by
  cases o with
  | ok page =>
      by_cases h1 : containsSub inStockMarker page = true
      · simp only [check_stock, h1, if_true] at h
        exact Or.inl h
      · by_cases h2 : containsSub outOfStockMarker page = true
        · simp only [Bool.not_eq_true] at h1
          simp [check_stock, h1, h2] at h
        · simp only [Bool.not_eq_true] at h1 h2
          simp only [check_stock, h1, h2, Bool.false_eq_true, if_false] at h
          by_cases h3 : cfg.maxRetries ≤ f + 1
          · simp only [h3, if_true] at h
            exact Or.inr ⟨f + 1, h⟩
          · simp [h3] at h
  | exn e =>
      simp only [check_stock] at h
      by_cases h3 : cfg.maxRetries ≤ f + 1
      · simp only [h3, if_true] at h
        exact Or.inr ⟨f + 1, h⟩
      · simp [h3] at h

theorem mem_heartbeatStep_calls (cfg : Config) (a b : Nat) (c : NotifyCall)
    (h : c ∈ (heartbeatStep cfg a b).1) :
    c ∈ (send_heartbeat cfg a b).1 := by
  by_cases hc : cfg.heartbeatHours * 3600 < b - a
  · simpa only [heartbeatStep, hc, if_true] using h
  · simp [heartbeatStep, hc] at h

theorem eventIsPushTitled_comp (t : String) :
    (eventIsPushTitled t ∘ Event.notify) = callIsPushTitled t := by
  funext c; rfl

theorem eventIsEmailSubj_comp (s : String) :
    (eventIsEmailSubj s ∘ Event.notify) = callIsEmailSubj s := by
  funext c; rfl

theorem callsPushCount_pair (t T m s b : String) (u1 u2 : Option String) :
    List.countP (callIsPushTitled t) [NotifyCall.push m T u1, NotifyCall.email s b u2] =
      if T = t then 1 else 0 := by
  simp [callIsPushTitled, List.countP_cons, beq_iff_eq]

theorem callsEmailCount_pair (s T m S b : String) (u1 u2 : Option String) :
    List.countP (callIsEmailSubj s) [NotifyCall.push m T u1, NotifyCall.email S b u2] =
      if S = s then 1 else 0 := by
  simp [callIsEmailSubj, List.countP_cons, beq_iff_eq]

theorem check_stock_calls_shape (cfg : Config) (f : Nat) (o : FetchOutcome) :
    (check_stock cfg f o).calls = inStockCalls cfg ∨
    (check_stock cfg f o).calls = [] ∨
    (check_stock cfg f o).calls = failureCalls cfg (f + 1) o := by
  cases o with
  | ok page =>
      by_cases hA : containsSub inStockMarker page = true
      · left; simp [check_stock, hA]
      · by_cases hB : containsSub outOfStockMarker page = true
        · right; left; simp [check_stock, hA, hB]
        · by_cases hC : cfg.maxRetries ≤ f + 1
          · right; right; simp [check_stock, hA, hB, hC]
          · right; left; simp [check_stock, hA, hB, hC]
  | exn e =>
      by_cases hC : cfg.maxRetries ≤ f + 1
      · right; right; simp [check_stock, hC]
      · right; left; simp [check_stock, hC]

theorem pushCount_check_stock (cfg : Config) (f : Nat) (o : FetchOutcome) (t : String)
    (h1 : "In Stock" ≠ t) (h2 : "Checker Error" ≠ t) (h3 : "Checker Exception" ≠ t) :
    List.countP (callIsPushTitled t) (check_stock cfg f o).calls = 0 := by
  rcases check_stock_calls_shape cfg f o with h | h | h <;> rw [h]
  · simp [inStockCalls, callsPushCount_pair, h1]
  · simp
  · cases o with
    | ok page => simp [failureCalls, callsPushCount_pair, h2]
    | exn e => simp [failureCalls, callsPushCount_pair, h3]

theorem emailCount_check_stock (cfg : Config) (f : Nat) (o : FetchOutcome) (s : String)
    (h1 : "Product In Stock" ≠ s) (h2 : "Stock Checker Error" ≠ s)
    (h3 : "Stock Checker Exception" ≠ s) :
    List.countP (callIsEmailSubj s) (check_stock cfg f o).calls = 0 := by
  rcases check_stock_calls_shape cfg f o with h | h | h <;> rw [h]
  · simp [inStockCalls, callsEmailCount_pair, h1]
  · simp
  · cases o with
    | ok page => simp [failureCalls, callsEmailCount_pair, h2]
    | exn e => simp [failureCalls, callsEmailCount_pair, h3]

theorem pushCount_heartbeatStep (cfg : Config) (a b : Nat) (t : String)
    (h : "Service Heartbeat" ≠ t) :
    List.countP (callIsPushTitled t) (heartbeatStep cfg a b).1 = 0 := by
  unfold heartbeatStep send_heartbeat
  split_ifs with hc
  · simp [callsPushCount_pair, h]
  · simp

theorem emailCount_heartbeatStep (cfg : Config) (a b : Nat) (s : String)
    (h : "Microcenter Stock Checker Service Heartbeat" ≠ s) :
    List.countP (callIsEmailSubj s) (heartbeatStep cfg a b).1 = 0 := by
  unfold heartbeatStep send_heartbeat
  split_ifs with hc
  · simp [callsEmailCount_pair, h]
  · simp

theorem pushCount_handleShutdown (cfg : Config) (t : String) :
    List.countP (eventIsPushTitled t) (handleShutdownEvents cfg) =
      if "Service Stopping" = t then 1 else 0 := by
  rw [handleShutdownEvents, List.countP_map, eventIsPushTitled_comp]
  exact callsPushCount_pair t _ _ _ _ _ _

theorem emailCount_handleShutdown (cfg : Config) (s : String) :
    List.countP (eventIsEmailSubj s) (handleShutdownEvents cfg) =
      if "Microcenter Stock Checker Service Stopping" = s then 1 else 0 := by
  rw [handleShutdownEvents, List.countP_map, eventIsEmailSubj_comp]
  exact callsEmailCount_pair s _ _ _ _ _ _

theorem pushCount_iterate_zero (cfg : Config) (st : LoopState) (i : CycleInput) (t : String)
    (h1 : "In Stock" ≠ t) (h2 : "Checker Error" ≠ t) (h3 : "Checker Exception" ≠ t)
    (h4 : "Service Heartbeat" ≠ t)
    (h5 : "Service Stopping" ≠ t ∨ i.sig = none) :
    List.countP (eventIsPushTitled t) (iterate cfg st i).events = 0 := by
  have hsigCount : ∀ (sp : SigPoint),
      List.countP (eventIsPushTitled t)
        (if i.sig = some sp then handleShutdownEvents cfg else []) = 0 := by
    intro sp
    split_ifs with hs
    · rw [pushCount_handleShutdown]
      rcases h5 with h5 | h5
      · simp [h5]
      · rw [h5] at hs; cases hs
    · simp
  have hcheck := pushCount_check_stock cfg st.failures i.fetch t h1 h2 h3
  have hhb := pushCount_heartbeatStep cfg st.lastHeartbeat i.now t h4
  unfold iterate
  by_cases hres : (check_stock cfg st.failures i.fetch).result = true
  · simp only [hres, if_true]
    simp [List.countP_append, List.countP_cons, List.countP_map,
      eventIsPushTitled_comp, eventIsPushTitled, hcheck, hsigCount]
  · simp only [hres, Bool.false_eq_true, if_false]
    simp [List.countP_append, List.countP_cons, List.countP_map,
      eventIsPushTitled_comp, eventIsPushTitled, hcheck, hhb, hsigCount]

theorem emailCount_iterate_zero (cfg : Config) (st : LoopState) (i : CycleInput) (s : String)
    (h1 : "Product In Stock" ≠ s) (h2 : "Stock Checker Error" ≠ s)
    (h3 : "Stock Checker Exception" ≠ s)
    (h4 : "Microcenter Stock Checker Service Heartbeat" ≠ s)
    (h5 : "Microcenter Stock Checker Service Stopping" ≠ s ∨ i.sig = none) :
    List.countP (eventIsEmailSubj s) (iterate cfg st i).events = 0 := by
  have hsigCount : ∀ (sp : SigPoint),
      List.countP (eventIsEmailSubj s)
        (if i.sig = some sp then handleShutdownEvents cfg else []) = 0 := by
    intro sp
    split_ifs with hs
    · rw [emailCount_handleShutdown]
      rcases h5 with h5 | h5
      · simp [h5]
      · rw [h5] at hs; cases hs
    · simp
  have hcheck := emailCount_check_stock cfg st.failures i.fetch s h1 h2 h3
  have hhb := emailCount_heartbeatStep cfg st.lastHeartbeat i.now s h4
  unfold iterate
  by_cases hres : (check_stock cfg st.failures i.fetch).result = true
  · simp only [hres, if_true]
    simp [List.countP_append, List.countP_cons, List.countP_map,
      eventIsEmailSubj_comp, eventIsEmailSubj, hcheck, hsigCount]
  · simp only [hres, Bool.false_eq_true, if_false]
    simp [List.countP_append, List.countP_cons, List.countP_map,
      eventIsEmailSubj_comp, eventIsEmailSubj, hcheck, hhb, hsigCount]

theorem runLoop_not_running (cfg : Config) (st : LoopState) (inputs : List CycleInput)
    (h : st.running = false) : runLoop cfg st inputs = [] := by
  cases inputs with
  | nil => rfl
  | cons i rest => simp [runLoop, h]

theorem pushCount_runLoop_zero (cfg : Config) (st : LoopState) (inputs : List CycleInput)
    (t : String)
    (h1 : "In Stock" ≠ t) (h2 : "Checker Error" ≠ t) (h3 : "Checker Exception" ≠ t)
    (h4 : "Service Heartbeat" ≠ t)
    (h5 : "Service Stopping" ≠ t ∨ ∀ i ∈ inputs, i.sig = none) :
    List.countP (eventIsPushTitled t) (runLoop cfg st inputs) = 0 := by
  induction inputs generalizing st with
  | nil => simp [runLoop]
  | cons i rest ih =>
      by_cases hr : st.running = true
      · have h5i : "Service Stopping" ≠ t ∨ i.sig = none := by
          rcases h5 with h | h
          · exact Or.inl h
          · exact Or.inr (h i (List.mem_cons_self i rest))
        have h5r : "Service Stopping" ≠ t ∨ ∀ j ∈ rest, j.sig = none := by
          rcases h5 with h | h
          · exact Or.inl h
          · exact Or.inr fun j hj => h j (List.mem_cons_of_mem i hj)
        have hiter := pushCount_iterate_zero cfg st i t h1 h2 h3 h4 h5i
        simp only [runLoop, hr, if_true, List.countP_append, hiter, Nat.zero_add]
        split_ifs with hb
        · simp
        · exact ih _ h5r
      · rw [runLoop_not_running cfg st (i :: rest) (by simpa using hr)]
        rfl

theorem emailCount_runLoop_zero (cfg : Config) (st : LoopState) (inputs : List CycleInput)
    (s : String)
    (h1 : "Product In Stock" ≠ s) (h2 : "Stock Checker Error" ≠ s)
    (h3 : "Stock Checker Exception" ≠ s)
    (h4 : "Microcenter Stock Checker Service Heartbeat" ≠ s)
    (h5 : "Microcenter Stock Checker Service Stopping" ≠ s ∨ ∀ i ∈ inputs, i.sig = none) :
    List.countP (eventIsEmailSubj s) (runLoop cfg st inputs) = 0 := by
  induction inputs generalizing st with
  | nil => simp [runLoop]
  | cons i rest ih =>
      by_cases hr : st.running = true
      · have h5i : "Microcenter Stock Checker Service Stopping" ≠ s ∨ i.sig = none := by
          rcases h5 with h | h
          · exact Or.inl h
          · exact Or.inr (h i (List.mem_cons_self i rest))
        have h5r : "Microcenter Stock Checker Service Stopping" ≠ s ∨ ∀ j ∈ rest, j.sig = none := by
          rcases h5 with h | h
          · exact Or.inl h
          · exact Or.inr fun j hj => h j (List.mem_cons_of_mem i hj)
        have hiter := emailCount_iterate_zero cfg st i s h1 h2 h3 h4 h5i
        simp only [runLoop, hr, if_true, List.countP_append, hiter, Nat.zero_add]
        split_ifs with hb
        · simp
        · exact ih _ h5r
      · rw [runLoop_not_running cfg st (i :: rest) (by simpa using hr)]
        rfl

theorem sleepCount_comp_notify (calls : List NotifyCall) :
    List.countP (isSleepEvent ∘ Event.notify) calls = 0 := by
  have h : (isSleepEvent ∘ Event.notify) = fun (_ : NotifyCall) => false := by
    funext c; rfl
  rw [h, List.countP_false]
  rfl

theorem sleepCount_map_notify (calls : List NotifyCall) :
    List.countP isSleepEvent (calls.map Event.notify) = 0 := by
  rw [List.countP_map]
  exact sleepCount_comp_notify calls

theorem sleepCount_iterate (cfg : Config) (st : LoopState) (i : CycleInput) :
    sleepCount (iterate cfg st i).events ≤ 1 := by
  have hsig0 : ∀ (sp : SigPoint),
      List.countP isSleepEvent
        (if i.sig = some sp then handleShutdownEvents cfg else []) = 0 := by
    intro sp
    split_ifs with hs
    · rw [handleShutdownEvents]; exact sleepCount_map_notify _
    · rfl
  by_cases hres : (check_stock cfg st.failures i.fetch).result = true
  · simp only [iterate, hres, if_true]
    simp [sleepCount, List.countP_append, List.countP_cons,
      sleepCount_map_notify, sleepCount_comp_notify, hsig0, isSleepEvent]
  · simp only [iterate, hres, Bool.false_eq_true, if_false]
    simp [sleepCount, List.countP_append, List.countP_cons,
      sleepCount_map_notify, sleepCount_comp_notify, hsig0, isSleepEvent]

/-! ## Claim theorems -/

/-- Claim C5: classification of a page text is total, and the in-stock marker
takes precedence: a page containing the in-stock marker (in particular one
containing both markers) parses as `InStock`, and a page containing only the
out-of-stock marker parses as `OutOfStock`, not `Unknown`. -/
theorem C5_parse_precedence (page : List Char) :
    (containsSub inStockMarker page = true → parse page = CheckResult.inStock) ∧
    (containsSub inStockMarker page = false →
      containsSub outOfStockMarker page = true →
      parse page = CheckResult.outOfStock) := by
  constructor
  · intro h; simp [parse, h]
  · intro h1 h2; simp [parse, h1, h2]

/-- Witness for C5 at two concrete pages: one containing both markers, one
containing only the out-of-stock marker. -/
theorem C5_parse_precedence_witness :
    containsSub inStockMarker "a\x27inStock\x27:\x27False\x27b\x27inStock\x27:\x27True\x27c".data = true ∧
    containsSub outOfStockMarker "a\x27inStock\x27:\x27False\x27b\x27inStock\x27:\x27True\x27c".data = true ∧
    parse "a\x27inStock\x27:\x27False\x27b\x27inStock\x27:\x27True\x27c".data = CheckResult.inStock ∧
    containsSub inStockMarker "a\x27inStock\x27:\x27False\x27b".data = false ∧
    containsSub outOfStockMarker "a\x27inStock\x27:\x27False\x27b".data = true ∧
    parse "a\x27inStock\x27:\x27False\x27b".data = CheckResult.outOfStock :=
  ⟨by decide, by decide,
   (C5_parse_precedence _).1 (by decide),
   by decide, by decide,
   (C5_parse_precedence _).2 (by decide) (by decide)⟩

/-- Claim C9: a page containing neither marker parses as `Unknown` and the
cycle increments the failure counter by exactly 1; a fetch exception
increments it identically. -/
theorem C9_unknown_increments (cfg : Config) (f : Nat) (page : List Char)
    (e : String)
    (h1 : containsSub inStockMarker page = false)
    (h2 : containsSub outOfStockMarker page = false) :
    parse page = CheckResult.unknown ∧
    (check_stock cfg f (FetchOutcome.ok page)).failures = f + 1 ∧
    (check_stock cfg f (FetchOutcome.exn e)).failures = f + 1 := by
  refine ⟨by simp [parse, h1, h2], by simp [check_stock, h1, h2], by simp [check_stock]⟩

/-- Witness for C9 at the empty page and a concrete exception message. -/
theorem C9_unknown_increments_witness :
    containsSub inStockMarker "".data = false ∧
    containsSub outOfStockMarker "".data = false ∧
    (parse "".data = CheckResult.unknown ∧
     (check_stock ⟨some "u", 60, 3, 24⟩ 0 (FetchOutcome.ok "".data)).failures = 1 ∧
     (check_stock ⟨some "u", 60, 3, 24⟩ 0 (FetchOutcome.exn "boom")).failures = 1) :=
  ⟨by decide, by decide,
   C9_unknown_increments ⟨some "u", 60, 3, 24⟩ 0 "".data "boom" (by decide) (by decide)⟩

/-- The `try`-block body returns `true` exactly when the fetch yielded a page
containing the in-stock marker; out-of-stock, unknown (including the
threshold cycle) and the caught-exception path all return `false`. -/
theorem check_stock_result_iff_instock (cfg : Config) (f : Nat) (fetch : FetchOutcome) :
    (check_stock cfg f fetch).result = true ↔
      ∃ page, fetch = FetchOutcome.ok page ∧
        containsSub inStockMarker page = true := by
  cases fetch with
  | ok page =>
      by_cases h1 : containsSub inStockMarker page = true
      · simp [check_stock, h1]
      · by_cases h2 : containsSub outOfStockMarker page = true
        · simp [check_stock, h1, h2]
        · simp only [Bool.not_eq_true] at h1 h2
          simp [check_stock, h1, h2]
  | exn e => simp [check_stock]

/-- Claim C1: over a run of consecutive failing cycles (unknown page or fetch
error) starting from a zero counter, no error notification fires while the
counter is below `maxRetries`; the threshold-reaching cycle fires exactly the
push+email error pair; the counter is never reset (it ends equal to the number
of cycles), so every subsequent failing cycle fires the pair again. -/
theorem C1_failure_threshold (cfg : Config) (outcomes : List FetchOutcome)
    (hfail : ∀ o ∈ outcomes, failingFetch o = true) :
    (runChecks cfg 0 outcomes).2 = outcomes.length ∧
    ∀ i, i < outcomes.length →
      (runChecks cfg 0 outcomes).1.getD i [] =
        if cfg.maxRetries ≤ i + 1 then
          failureCalls cfg (i + 1) (outcomes.getD i (FetchOutcome.exn ""))
        else [] := by
  have h := runChecks_failing cfg outcomes 0 hfail
  simpa using h

/-- Witness for C1: three unknown cycles with threshold 3 — the first two
cycles send nothing, the third sends the error pair, and the counter ends at
3. -/
theorem C1_failure_threshold_witness :
    (∀ o ∈ [FetchOutcome.ok "".data, FetchOutcome.ok "".data, FetchOutcome.exn "boom"],
        failingFetch o = true) ∧
    (runChecks ⟨some "u", 60, 3, 24⟩ 0
        [FetchOutcome.ok "".data, FetchOutcome.ok "".data, FetchOutcome.exn "boom"]).2 = 3 ∧
    (runChecks ⟨some "u", 60, 3, 24⟩ 0
        [FetchOutcome.ok "".data, FetchOutcome.ok "".data, FetchOutcome.exn "boom"]).1 =
      [[], [], failureCalls ⟨some "u", 60, 3, 24⟩ 3 (FetchOutcome.exn "boom")] := by
  refine ⟨by decide, ?_, ?_⟩
  · exact (C1_failure_threshold ⟨some "u", 60, 3, 24⟩ _ (by decide)).1
  · decide

/-- Claim C2: a cycle whose page contains the in-stock marker resets the
failure counter to 0 from any prior value, emits exactly the in-stock
push+email pair (each call carrying the configured product URL), takes the
`break`, and the loop terminates without starting another check cycle: the
whole remaining loop trace is just this cycle's events. -/
theorem C2_instock_terminates (cfg : Config) (st : LoopState) (i : CycleInput)
    (rest : List CycleInput) (page : List Char)
    (hrun : st.running = true) (hsig : i.sig = none)
    (hfetch : i.fetch = FetchOutcome.ok page)
    (hin : containsSub inStockMarker page = true) :
    (iterate cfg st i).events =
      Event.cycleStart :: (inStockCalls cfg).map Event.notify ∧
    (iterate cfg st i).state.failures = 0 ∧
    (iterate cfg st i).brk = true ∧
    runLoop cfg st (i :: rest) = (iterate cfg st i).events := by
  have hco : check_stock cfg st.failures i.fetch =
      { failures := 0, calls := inStockCalls cfg, result := true } := by
    rw [hfetch]; simp [check_stock, hin]
  refine ⟨?_, ?_, ?_, ?_⟩
  · simp [iterate, hco, hsig]
  · simp [iterate, hco, hsig]
  · simp [iterate, hco]
  · simp [runLoop, hrun, iterate, hco, hsig]

/-- Witness for C2: a concrete in-stock cycle from a dirty state
(counter 5) with one further queued input that is never consumed. -/
theorem C2_instock_terminates_witness :
    (LoopState.mk true 5 0).running = true ∧
    (CycleInput.mk (FetchOutcome.ok "x\x27inStock\x27:\x27True\x27y".data) 0 none).sig = none ∧
    containsSub inStockMarker "x\x27inStock\x27:\x27True\x27y".data = true ∧
    ((iterate ⟨some "u", 60, 3, 24⟩ ⟨true, 5, 0⟩
        ⟨FetchOutcome.ok "x\x27inStock\x27:\x27True\x27y".data, 0, none⟩).events =
      Event.cycleStart :: (inStockCalls ⟨some "u", 60, 3, 24⟩).map Event.notify ∧
     (iterate ⟨some "u", 60, 3, 24⟩ ⟨true, 5, 0⟩
        ⟨FetchOutcome.ok "x\x27inStock\x27:\x27True\x27y".data, 0, none⟩).state.failures = 0 ∧
     (iterate ⟨some "u", 60, 3, 24⟩ ⟨true, 5, 0⟩
        ⟨FetchOutcome.ok "x\x27inStock\x27:\x27True\x27y".data, 0, none⟩).brk = true ∧
     runLoop ⟨some "u", 60, 3, 24⟩ ⟨true, 5, 0⟩
        [⟨FetchOutcome.ok "x\x27inStock\x27:\x27True\x27y".data, 0, none⟩,
         ⟨FetchOutcome.exn "never reached", 0, none⟩] =
       (iterate ⟨some "u", 60, 3, 24⟩ ⟨true, 5, 0⟩
          ⟨FetchOutcome.ok "x\x27inStock\x27:\x27True\x27y".data, 0, none⟩).events) :=
  ⟨rfl, rfl, by decide,
   C2_instock_terminates ⟨some "u", 60, 3, 24⟩ ⟨true, 5, 0⟩
     ⟨FetchOutcome.ok "x\x27inStock\x27:\x27True\x27y".data, 0, none⟩
     [⟨FetchOutcome.exn "never reached", 0, none⟩]
     "x\x27inStock\x27:\x27True\x27y".data rfl rfl rfl (by decide)⟩

/-- Counterexample to claim C3 as stated: in a run shut down by a signal, the
handler's "Service Stopping" pair and the `finally` block's "Service Stopped"
pair are BOTH emitted — two stop-related notification pairs in total, not
exactly one, because the normal exit path is not suppressed after the
handler ran. -/
theorem C3_counterexample :
    pushTitleCount "Service Stopping"
        (run ⟨some "u", 60, 3, 24⟩ 0 [⟨FetchOutcome.exn "x", 0, some SigPoint.duringCheck⟩]) = 1 ∧
    pushTitleCount "Service Stopped"
        (run ⟨some "u", 60, 3, 24⟩ 0 [⟨FetchOutcome.exn "x", 0, some SigPoint.duringCheck⟩]) = 1 ∧
    emailSubjectCount "Microcenter Stock Checker Service Stopping"
        (run ⟨some "u", 60, 3, 24⟩ 0 [⟨FetchOutcome.exn "x", 0, some SigPoint.duringCheck⟩]) = 1 ∧
    emailSubjectCount "Microcenter Stock Checker Service Stopped"
        (run ⟨some "u", 60, 3, 24⟩ 0 [⟨FetchOutcome.exn "x", 0, some SigPoint.duringCheck⟩]) = 1 ∧
    pushTitleCount "Service Stopping"
        (run ⟨some "u", 60, 3, 24⟩ 0 [⟨FetchOutcome.exn "x", 0, some SigPoint.duringCheck⟩]) +
      pushTitleCount "Service Stopped"
        (run ⟨some "u", 60, 3, 24⟩ 0 [⟨FetchOutcome.exn "x", 0, some SigPoint.duringCheck⟩]) = 2 := by
  decide

/-- Claim C3 (amended): every run emits the `finally` block's
"Service Stopped" pair exactly once — on in-stock success, on truncation, and
after a signal alike; runs in which no shutdown signal is delivered emit no
"Service Stopping" pair at all.  (A signal-driven shutdown, however, adds the
handler's "Service Stopping" pair on top of the stopped pair, giving two
stop-related pairs, as the counterexample shows.) -/
theorem C3_stop_notifications (cfg : Config) (startTime : Nat)
    (inputs : List CycleInput) :
    pushTitleCount "Service Stopped" (run cfg startTime inputs) = 1 ∧
    emailSubjectCount "Microcenter Stock Checker Service Stopped"
      (run cfg startTime inputs) = 1 ∧
    ((∀ i ∈ inputs, i.sig = none) →
      pushTitleCount "Service Stopping" (run cfg startTime inputs) = 0 ∧
      emailSubjectCount "Microcenter Stock Checker Service Stopping"
        (run cfg startTime inputs) = 0) := by
  have hloopA := pushCount_runLoop_zero cfg (initState startTime) inputs
    "Service Stopped" (by decide) (by decide) (by decide) (by decide)
    (Or.inl (by decide))
  have hloopB := emailCount_runLoop_zero cfg (initState startTime) inputs
    "Microcenter Stock Checker Service Stopped" (by decide) (by decide)
    (by decide) (by decide) (Or.inl (by decide))
  refine ⟨?_, ?_, fun hs => ?_⟩
  · simp [run, pushTitleCount, List.countP_append, List.countP_cons, hloopA,
      startedPair, stoppedPair, eventIsPushTitled, callIsPushTitled]
  · simp [run, emailSubjectCount, List.countP_append, List.countP_cons, hloopB,
      startedPair, stoppedPair, eventIsEmailSubj, callIsEmailSubj]
  · have hloopC := pushCount_runLoop_zero cfg (initState startTime) inputs
      "Service Stopping" (by decide) (by decide) (by decide) (by decide)
      (Or.inr hs)
    have hloopD := emailCount_runLoop_zero cfg (initState startTime) inputs
      "Microcenter Stock Checker Service Stopping" (by decide) (by decide)
      (by decide) (by decide) (Or.inr hs)
    constructor
    · simp [run, pushTitleCount, List.countP_append, List.countP_cons, hloopC,
        startedPair, stoppedPair, eventIsPushTitled, callIsPushTitled]
    · simp [run, emailSubjectCount, List.countP_append, List.countP_cons, hloopD,
        startedPair, stoppedPair, eventIsEmailSubj, callIsEmailSubj]

/-- Witness for C3 (amended) on a concrete signal-free run. -/
theorem C3_stop_notifications_witness :
    (∀ i ∈ [CycleInput.mk (FetchOutcome.exn "x") 0 none], i.sig = none) ∧
    pushTitleCount "Service Stopped"
      (run ⟨some "u", 60, 3, 24⟩ 0 [⟨FetchOutcome.exn "x", 0, none⟩]) = 1 ∧
    pushTitleCount "Service Stopping"
      (run ⟨some "u", 60, 3, 24⟩ 0 [⟨FetchOutcome.exn "x", 0, none⟩]) = 0 :=
  ⟨by decide,
   (C3_stop_notifications ⟨some "u", 60, 3, 24⟩ 0 [⟨FetchOutcome.exn "x", 0, none⟩]).1,
   ((C3_stop_notifications ⟨some "u", 60, 3, 24⟩ 0
      [⟨FetchOutcome.exn "x", 0, none⟩]).2.2 (by decide)).1⟩

/-- Counterexample to claim C4 as stated: in a run with two heartbeats the
second heartbeat reports an uptime of `now - lastHeartbeat` — the time since
the PREVIOUS heartbeat (here 7200 s), not the time since loop start (here
14400 s): the message built from the since-start uptime appears nowhere in
the trace. -/
theorem C4_counterexample :
    Event.notify (NotifyCall.push (heartbeatMessage 7200 14400)
        "Service Heartbeat" (some "u")) ∈
      run ⟨some "u", 60, 3, 1⟩ 0
        [⟨FetchOutcome.exn "a", 7200, none⟩, ⟨FetchOutcome.exn "b", 14400, none⟩] ∧
    Event.notify (NotifyCall.push (heartbeatMessage 14400 14400)
        "Service Heartbeat" (some "u")) ∉
      run ⟨some "u", 60, 3, 1⟩ 0
        [⟨FetchOutcome.exn "a", 7200, none⟩, ⟨FetchOutcome.exn "b", 14400, none⟩] ∧
    heartbeatMessage 7200 14400 ≠ heartbeatMessage 14400 14400 := by
  decide

/-- Claim C4 (amended): in every non-breaking iteration, before the sleep,
a heartbeat pair is sent exactly when `now - lastHeartbeat` strictly exceeds
the heartbeat interval; the reported uptime is the time since the PREVIOUS
heartbeat, `now - lastHeartbeat` (which equals time since loop start only for
the first heartbeat), and `lastHeartbeat` is then reset to `now`; otherwise
nothing is sent and `lastHeartbeat` is unchanged. -/
theorem C4_heartbeat_timing (cfg : Config) (st : LoopState) (i : CycleInput)
    (hres : (check_stock cfg st.failures i.fetch).result = false) :
    (cfg.heartbeatHours * 3600 < i.now - st.lastHeartbeat →
      pushTitleCount "Service Heartbeat" (iterate cfg st i).events = 1 ∧
      Event.notify (NotifyCall.push
          (heartbeatMessage (i.now - st.lastHeartbeat) i.now)
          "Service Heartbeat" cfg.productUrl) ∈ (iterate cfg st i).events ∧
      (iterate cfg st i).state.lastHeartbeat = i.now) ∧
    (¬ cfg.heartbeatHours * 3600 < i.now - st.lastHeartbeat →
      pushTitleCount "Service Heartbeat" (iterate cfg st i).events = 0 ∧
      (iterate cfg st i).state.lastHeartbeat = st.lastHeartbeat) := by
  have hres2 : ¬ (check_stock cfg st.failures i.fetch).result = true := by
    simp [hres]
  have hsig0 : ∀ (sp : SigPoint),
      List.countP (eventIsPushTitled "Service Heartbeat")
        (if i.sig = some sp then handleShutdownEvents cfg else []) = 0 := by
    intro sp
    split_ifs with hs
    · rw [pushCount_handleShutdown]; simp
    · rfl
  have hcheck := pushCount_check_stock cfg st.failures i.fetch "Service Heartbeat"
    (by decide) (by decide) (by decide)
  constructor
  · intro hcond
    have hhb : heartbeatStep cfg st.lastHeartbeat i.now =
        ([NotifyCall.push (heartbeatMessage (i.now - st.lastHeartbeat) i.now)
            "Service Heartbeat" cfg.productUrl,
          NotifyCall.email "Microcenter Stock Checker Service Heartbeat"
            (heartbeatMessage (i.now - st.lastHeartbeat) i.now) cfg.productUrl],
         i.now) := by
      simp [heartbeatStep, hcond, send_heartbeat]
    refine ⟨?_, ?_, ?_⟩
    · simp only [iterate, hres2, Bool.false_eq_true, if_false]
      simp [pushTitleCount, List.countP_append, List.countP_cons, hhb, hsig0,
        hcheck, eventIsPushTitled, callIsPushTitled, List.countP_map,
        eventIsPushTitled_comp]
    · simp only [iterate, hres2, Bool.false_eq_true, if_false]
      simp [hhb]
    · simp only [iterate, hres2, Bool.false_eq_true, if_false]
      simp [hhb]
  · intro hcond
    have hhb : heartbeatStep cfg st.lastHeartbeat i.now = ([], st.lastHeartbeat) := by
      simp [heartbeatStep, hcond]
    refine ⟨?_, ?_⟩
    · simp only [iterate, hres2, Bool.false_eq_true, if_false]
      simp [pushTitleCount, List.countP_append, List.countP_cons, hhb, hsig0,
        hcheck, eventIsPushTitled, List.countP_map, eventIsPushTitled_comp]
    · simp only [iterate, hres2, Bool.false_eq_true, if_false]
      simp [hhb]

/-- Witness for C4 (amended): a concrete overdue iteration fires one
heartbeat reporting `now - lastHeartbeat` and resets `lastHeartbeat`. -/
theorem C4_heartbeat_timing_witness :
    (check_stock ⟨some "u", 60, 3, 1⟩ 0 (FetchOutcome.exn "a")).result = false ∧
    (Config.mk (some "u") 60 3 1).heartbeatHours * 3600 < 7200 - 0 ∧
    (pushTitleCount "Service Heartbeat"
        (iterate ⟨some "u", 60, 3, 1⟩ ⟨true, 0, 0⟩
          ⟨FetchOutcome.exn "a", 7200, none⟩).events = 1 ∧
     (iterate ⟨some "u", 60, 3, 1⟩ ⟨true, 0, 0⟩
        ⟨FetchOutcome.exn "a", 7200, none⟩).state.lastHeartbeat = 7200) :=
  ⟨by decide, by decide,
   (fun h => ⟨h.1, h.2.2⟩)
     ((C4_heartbeat_timing ⟨some "u", 60, 3, 1⟩ ⟨true, 0, 0⟩
        ⟨FetchOutcome.exn "a", 7200, none⟩ (by decide)).1 (by decide))⟩

/-- Counterexample to claim C7 as stated: deliver the shutdown signal while
`check_stock` of a cycle is running; the handler runs (and sets the flag),
yet the iteration still executes its unconditional full
`time.sleep(POLL_INTERVAL)` afterwards — in the trace suffix starting at the
handler's "Service Stopping" push there is one full poll-interval sleep, so
the loop DOES sleep for the poll interval again after shutdown was
signaled. -/
theorem C7_counterexample :
    sleepCount ((run ⟨some "u", 60, 3, 24⟩ 0
        [⟨FetchOutcome.exn "x", 0, some SigPoint.duringCheck⟩]).dropWhile
          (fun e => !eventIsPushTitled "Service Stopping" e)) = 1 := by
  decide

/-- Claim C7 (amended): once the `running` flag is false at the top of the
loop, the loop exits with no further events (no new check cycle, no further
sleep); and the iteration in which a signal is delivered is the final one —
the loop trace with further queued inputs equals the trace with none — with
at most one full poll-interval sleep occurring in it (the unconditional
end-of-iteration sleep, which still runs when the signal arrives during the
check). -/
theorem C7_shutdown_latency (cfg : Config) :
    (∀ (st : LoopState) (inputs : List CycleInput), st.running = false →
      runLoop cfg st inputs = []) ∧
    (∀ (st : LoopState) (i : CycleInput) (rest : List CycleInput),
      st.running = true → i.sig.isSome = true →
      runLoop cfg st (i :: rest) = runLoop cfg st [i] ∧
      sleepCount (runLoop cfg st (i :: rest)) ≤ 1) := by
  refine ⟨runLoop_not_running cfg, ?_⟩
  intro st i rest hrun hsig
  have key : ∀ (r : List CycleInput), runLoop cfg st (i :: r) =
      (iterate cfg st i).events ++
        (if (iterate cfg st i).brk then []
         else runLoop cfg (iterate cfg st i).state r) := by
    intro r; simp [runLoop, hrun]
  have hmain : runLoop cfg st (i :: rest) = (iterate cfg st i).events := by
    by_cases hbrk : (iterate cfg st i).brk = true
    · rw [key rest, hbrk]
      simp
    · have hrun2 : (iterate cfg st i).state.running = false := by
        by_cases hres : (check_stock cfg st.failures i.fetch).result = true
        · exact absurd (by simp [iterate, hres]) hbrk
        · simp [iterate, hres, hsig]
      rw [key rest]
      simp [hbrk, runLoop_not_running cfg _ rest hrun2]
  have hone : runLoop cfg st [i] = (iterate cfg st i).events := by
    by_cases hbrk : (iterate cfg st i).brk = true
    · rw [key [], hbrk]
      simp
    · have hrun2 : (iterate cfg st i).state.running = false := by
        by_cases hres : (check_stock cfg st.failures i.fetch).result = true
        · exact absurd (by simp [iterate, hres]) hbrk
        · simp [iterate, hres, hsig]
      rw [key []]
      simp [hbrk, runLoop_not_running cfg _ [] hrun2]
  refine ⟨hmain.trans hone.symm, ?_⟩
  rw [hmain]
  exact sleepCount_iterate cfg st i

/-- Witness for C7 (amended) at a concrete stopped state and a concrete
signal-carrying cycle followed by a queued input that is never consumed. -/
theorem C7_shutdown_latency_witness :
    (LoopState.mk false 0 0).running = false ∧
    runLoop ⟨some "u", 60, 3, 24⟩ ⟨false, 0, 0⟩ [⟨FetchOutcome.exn "x", 0, none⟩] = [] ∧
    (LoopState.mk true 0 0).running = true ∧
    (CycleInput.mk (FetchOutcome.exn "x") 0 (some SigPoint.duringCheck)).sig.isSome = true ∧
    (runLoop ⟨some "u", 60, 3, 24⟩ ⟨true, 0, 0⟩
        [⟨FetchOutcome.exn "x", 0, some SigPoint.duringCheck⟩, ⟨FetchOutcome.exn "y", 0, none⟩] =
      runLoop ⟨some "u", 60, 3, 24⟩ ⟨true, 0, 0⟩
        [⟨FetchOutcome.exn "x", 0, some SigPoint.duringCheck⟩] ∧
     sleepCount (runLoop ⟨some "u", 60, 3, 24⟩ ⟨true, 0, 0⟩
        [⟨FetchOutcome.exn "x", 0, some SigPoint.duringCheck⟩,
         ⟨FetchOutcome.exn "y", 0, none⟩]) ≤ 1) :=
  ⟨rfl,
   (C7_shutdown_latency ⟨some "u", 60, 3, 24⟩).1 ⟨false, 0, 0⟩
     [⟨FetchOutcome.exn "x", 0, none⟩] rfl,
   rfl, rfl,
   (C7_shutdown_latency ⟨some "u", 60, 3, 24⟩).2 ⟨true, 0, 0⟩
     ⟨FetchOutcome.exn "x", 0, some SigPoint.duringCheck⟩
     [⟨FetchOutcome.exn "y", 0, none⟩] rfl rfl⟩

/-- Counterexample to claim C6 as stated: with the target URL missing from
the environment, configuration loading still succeeds (there is no URL
validation anywhere) and the check loop is entered — a check cycle starts —
instead of the process exiting before the loop. -/
theorem C6_counterexample :
    loadConfig (fun _ => none) =
      Except.ok { productUrl := none, pollInterval := 60, maxRetries := 3,
                  heartbeatHours := 24 } ∧
    cycleStartCount (run ⟨none, 60, 3, 24⟩ 0 [⟨FetchOutcome.exn "x", 0, none⟩]) = 1 := by
  constructor
  · rfl
  · decide

/-- Claim C6 (amended): a missing target URL is never validated and never
causes an exit: any successful configuration load with `PRODUCT_URL` unset
yields a configuration whose URL is simply absent, and the check loop is
entered (a first check cycle starts) for EVERY configuration, URL present or
not.  Only the integer conversion of the numeric settings can fail at
startup. -/
theorem C6_missing_url_not_fatal :
    (∀ (env : String → Option String) (cfg : Config), env "PRODUCT_URL" = none →
      loadConfig env = Except.ok cfg → cfg.productUrl = none) ∧
    (∀ (cfg : Config) (t : Nat) (i : CycleInput) (rest : List CycleInput),
      1 ≤ cycleStartCount (run cfg t (i :: rest))) := by
  constructor
  · intro env cfg hnone hok
    unfold loadConfig at hok
    split at hok
    · cases hok
      simpa using hnone
    · cases hok
  · intro cfg t i rest
    have h1 : 1 ≤ cycleStartCount ((iterate cfg (initState t) i).events) := by
      by_cases hres : (check_stock cfg (initState t).failures i.fetch).result = true
      · simp only [iterate, hres, if_true]
        simp [cycleStartCount, List.countP_append, List.countP_cons, isCycleStart]
      · simp only [iterate, hres, Bool.false_eq_true, if_false]
        simp [cycleStartCount, List.countP_append, List.countP_cons, isCycleStart]
    have h2 : runLoop cfg (initState t) (i :: rest) =
        (iterate cfg (initState t) i).events ++
          (if (iterate cfg (initState t) i).brk then []
           else runLoop cfg (iterate cfg (initState t) i).state rest) := by
      simp [runLoop, initState]
    have h3 : cycleStartCount (run cfg t (i :: rest)) =
        cycleStartCount ((startedPair cfg).map Event.notify) +
          cycleStartCount (runLoop cfg (initState t) (i :: rest)) +
          cycleStartCount ((stoppedPair cfg).map Event.notify) := by
      simp [run, cycleStartCount, List.countP_append]
      omega
    rw [h3, h2]
    have h4 : cycleStartCount ((iterate cfg (initState t) i).events ++
        (if (iterate cfg (initState t) i).brk then []
         else runLoop cfg (iterate cfg (initState t) i).state rest)) =
        cycleStartCount ((iterate cfg (initState t) i).events) +
          cycleStartCount (if (iterate cfg (initState t) i).brk then []
            else runLoop cfg (iterate cfg (initState t) i).state rest) := by
      simp [cycleStartCount, List.countP_append]
    omega

/-- Witness for C6 (amended): the all-absent environment loads successfully
with no URL, and a concrete run enters its first check cycle. -/
theorem C6_missing_url_not_fatal_witness :
    ((fun (_ : String) => (none : Option String)) "PRODUCT_URL" = none ∧
     loadConfig (fun _ => none) =
       Except.ok ⟨none, 60, 3, 24⟩ ∧
     (Config.mk none 60 3 24).productUrl = none) ∧
    1 ≤ cycleStartCount (run ⟨none, 60, 3, 24⟩ 0
      [⟨FetchOutcome.exn "x", 0, none⟩, ⟨FetchOutcome.exn "y", 0, none⟩]) :=
  ⟨⟨rfl, rfl,
    (C6_missing_url_not_fatal).1 (fun _ => none) ⟨none, 60, 3, 24⟩ rfl rfl⟩,
   (C6_missing_url_not_fatal).2 ⟨none, 60, 3, 24⟩ 0
     ⟨FetchOutcome.exn "x", 0, none⟩ [⟨FetchOutcome.exn "y", 0, none⟩]⟩

/-- Claim C8: transport errors raised inside `send_push`/`send_email` are
caught in the function and only logged — the call returns normally with the
error recorded as a log event, never propagating — and when the credentials
or settings are missing the function returns after a warning without ever
touching the transport. -/
theorem C8_transport_errors_nonfatal (env : String → Option String)
    (message title subject body : String) (url : Option String) (e : String) :
    (pyTruthy (env "PUSHOVER_TOKEN") = true → pyTruthy (env "PUSHOVER_USER") = true →
      ∃ p, send_push env message title url (Except.error e) =
        [SendEvent.postAttempt p, SendEvent.logError ("Pushover error: " ++ e)]) ∧
    ((pyTruthy (env "PUSHOVER_TOKEN") = false ∨ pyTruthy (env "PUSHOVER_USER") = false) →
      ∀ transport : Except String Unit,
        send_push env message title url transport =
          [SendEvent.warnSkipped "Pushover credentials missing, skipping push"] ∧
        attemptsTransport (send_push env message title url transport) = false) ∧
    (pyTruthy (env "EMAIL_USER") = true → pyTruthy (env "EMAIL_PASSWORD") = true →
      (parseRecipients ((env "EMAIL_RECIPIENTS").getD "")).isEmpty = false →
      ∃ p, send_email env subject body url (Except.error e) =
        [SendEvent.smtpAttempt p, SendEvent.logError ("Email error: " ++ e)]) ∧
    ((pyTruthy (env "EMAIL_USER") = false ∨ pyTruthy (env "EMAIL_PASSWORD") = false ∨
        (parseRecipients ((env "EMAIL_RECIPIENTS").getD "")).isEmpty = true) →
      ∀ transport : Except String Unit,
        send_email env subject body url transport =
          [SendEvent.warnSkipped "Email settings incomplete, skipping email"] ∧
        attemptsTransport (send_email env subject body url transport) = false) := by
  refine ⟨?_, ?_, ?_, ?_⟩
  · intro ha hb
    refine ⟨{ token := (env "PUSHOVER_TOKEN").getD "",
              user := (env "PUSHOVER_USER").getD "",
              message := message, title := title,
              url := if pyTruthy url = true then url else none,
              urlTitle := if pyTruthy url = true then some "View Product" else none }, ?_⟩
    simp [send_push, ha, hb]
  · intro hmiss transport
    have hcond : (!pyTruthy (env "PUSHOVER_TOKEN") ||
        !pyTruthy (env "PUSHOVER_USER")) = true := by
      rcases hmiss with h | h <;> simp [h]
    constructor
    · simp [send_push, hcond]
    · simp [send_push, hcond, attemptsTransport]
  · intro ha hb hc
    refine ⟨{ fromAddr := (env "EMAIL_USER").getD "",
              toAddrs := parseRecipients ((env "EMAIL_RECIPIENTS").getD ""),
              subject := subject,
              body := if pyTruthy url = true
                then body ++ "\n\nProduct URL: " ++ url.getD "" else body }, ?_⟩
    simp [send_email, ha, hb, hc]
  · intro hmiss transport
    have hcond : (!pyTruthy (env "EMAIL_USER") || !pyTruthy (env "EMAIL_PASSWORD") ||
        (parseRecipients ((env "EMAIL_RECIPIENTS").getD "")).isEmpty) = true := by
      rcases hmiss with h | h | h <;> simp [h]
    constructor
    · simp [send_email, hcond]
    · simp [send_email, hcond, attemptsTransport]

/-- Witness for C8 on a concrete environment: a configured channel logs the
transport error and returns; an unconfigured channel skips without any
transport attempt. -/
theorem C8_transport_errors_nonfatal_witness :
    (∃ p, send_push
        (fun k => if k = "PUSHOVER_TOKEN" then some "tk"
          else if k = "PUSHOVER_USER" then some "us"
          else if k = "EMAIL_USER" then some "a@b"
          else if k = "EMAIL_PASSWORD" then some "pw"
          else if k = "EMAIL_RECIPIENTS" then some "c@d, e@f"
          else none)
        "m" "t" (some "http://x") (Except.error "boom") =
      [SendEvent.postAttempt p, SendEvent.logError ("Pushover error: " ++ "boom")]) ∧
    (∃ p, send_email
        (fun k => if k = "PUSHOVER_TOKEN" then some "tk"
          else if k = "PUSHOVER_USER" then some "us"
          else if k = "EMAIL_USER" then some "a@b"
          else if k = "EMAIL_PASSWORD" then some "pw"
          else if k = "EMAIL_RECIPIENTS" then some "c@d, e@f"
          else none)
        "s" "b" (some "http://x") (Except.error "boom") =
      [SendEvent.smtpAttempt p, SendEvent.logError ("Email error: " ++ "boom")]) ∧
    (send_push (fun _ => none) "m" "t" none (Except.error "boom") =
      [SendEvent.warnSkipped "Pushover credentials missing, skipping push"] ∧
     attemptsTransport (send_push (fun _ => none) "m" "t" none (Except.error "boom")) = false) :=
  ⟨(C8_transport_errors_nonfatal
      (fun k => if k = "PUSHOVER_TOKEN" then some "tk"
        else if k = "PUSHOVER_USER" then some "us"
        else if k = "EMAIL_USER" then some "a@b"
        else if k = "EMAIL_PASSWORD" then some "pw"
        else if k = "EMAIL_RECIPIENTS" then some "c@d, e@f"
        else none)
      "m" "t" "s" "b" (some "http://x") "boom").1 (by decide) (by decide),
   (C8_transport_errors_nonfatal
      (fun k => if k = "PUSHOVER_TOKEN" then some "tk"
        else if k = "PUSHOVER_USER" then some "us"
        else if k = "EMAIL_USER" then some "a@b"
        else if k = "EMAIL_PASSWORD" then some "pw"
        else if k = "EMAIL_RECIPIENTS" then some "c@d, e@f"
        else none)
      "m" "t" "s" "b" (some "http://x") "boom").2.2.1 (by decide) (by decide) (by decide),
   (C8_transport_errors_nonfatal (fun _ => none)
      "m" "t" "s" "b" none "boom").2.1 (Or.inl (by decide)) (Except.error "boom")⟩

/-- Counterexample to claim C10 as stated: a failure of the driver
construction at line 193 — which the claim's "fetch exception" case covers —
happens BEFORE the `try` of line 194, so `check_stock` raises instead of
returning `False`: the call produces the propagated error, not a returned
boolean. -/
theorem C10_counterexample :
    check_stock_full ⟨some "u", 60, 3, 24⟩ 0
        (DriverOutcome.raise "chromedriver failed") (FetchOutcome.ok "".data) =
      Except.error "chromedriver failed" ∧
    (check_stock_full ⟨some "u", 60, 3, 24⟩ 0
        (DriverOutcome.raise "chromedriver failed") (FetchOutcome.ok "".data)).toOption =
      none :=
  ⟨rfl, rfl⟩

/-- Claim C10 (amended): whenever `check_stock` returns, it returns `True`
exactly when the page fetch succeeded and the page contains the in-stock
marker — out-of-stock, unknown status (even on the threshold-notification
cycle) and a `WebDriverException`/`TimeoutError` raised inside the `try`
during page load all return `False` rather than raising; but an exception
from the driver construction at line 193, which precedes the `try`, is not
caught and propagates out of `check_stock`. -/
theorem C10_result_characterization (cfg : Config) (f : Nat) (d : DriverOutcome)
    (fetch : FetchOutcome) :
    (∀ out : CheckOutput, check_stock_full cfg f d fetch = Except.ok out →
      (out.result = true ↔
        ∃ page, fetch = FetchOutcome.ok page ∧
          containsSub inStockMarker page = true)) ∧
    (d = DriverOutcome.ok →
      check_stock_full cfg f d fetch = Except.ok (check_stock cfg f fetch)) ∧
    (∀ msg, d = DriverOutcome.raise msg →
      check_stock_full cfg f d fetch = Except.error msg) := by
  refine ⟨?_, ?_, ?_⟩
  · intro out hout
    cases d with
    | ok =>
        simp only [check_stock_full, Except.ok.injEq] at hout
        rw [← hout]
        exact check_stock_result_iff_instock cfg f fetch
    | raise msg => simp [check_stock_full] at hout
  · intro hd
    rw [hd]
    rfl
  · intro msg hd
    rw [hd]
    rfl

/-- Witness for C10 (amended): with the driver built, a caught fetch
exception returns normally (and not `True`); with the driver construction
failing, the same cycle propagates the error. -/
theorem C10_result_characterization_witness :
    ((check_stock ⟨some "u", 60, 3, 24⟩ 0 (FetchOutcome.exn "boom")).result = true ↔
      ∃ page, FetchOutcome.exn "boom" = FetchOutcome.ok page ∧
        containsSub inStockMarker page = true) ∧
    check_stock_full ⟨some "u", 60, 3, 24⟩ 0 DriverOutcome.ok
        (FetchOutcome.exn "boom") =
      Except.ok (check_stock ⟨some "u", 60, 3, 24⟩ 0 (FetchOutcome.exn "boom")) ∧
    check_stock_full ⟨some "u", 60, 3, 24⟩ 0 (DriverOutcome.raise "no driver")
        (FetchOutcome.exn "boom") = Except.error "no driver" :=
  ⟨(C10_result_characterization ⟨some "u", 60, 3, 24⟩ 0 DriverOutcome.ok
      (FetchOutcome.exn "boom")).1
    (check_stock ⟨some "u", 60, 3, 24⟩ 0 (FetchOutcome.exn "boom")) rfl,
   (C10_result_characterization ⟨some "u", 60, 3, 24⟩ 0 DriverOutcome.ok
      (FetchOutcome.exn "boom")).2.1 rfl,
   (C10_result_characterization ⟨some "u", 60, 3, 24⟩ 0
      (DriverOutcome.raise "no driver") (FetchOutcome.exn "boom")).2.2 "no driver" rfl⟩

end StockChecker
